import Mathlib

/-!
Verification of the L. Spiro NES execution-engine specification against a
shallow embedding of the emulator source (`Src/Cpu/LSNCpu6502.cpp`,
`Src/Cpu/LSNCpu6502.h`, `Src/Mappers/LSNMapper094.cpp`).

Pure fragments of the C++ are translated into Lean functions.  Machine
integers are modelled as `Nat` with explicit reductions modulo `2^8`,
`2^16` or `2^64` exactly where the C++ types truncate.  Member-function
micro-steps become functions on explicit state structures.  Where a
micro-step invokes another member through a pointer (the mapper tick or the
per-cycle micro-step function), the embedding universally quantifies over
that function, so the proved equations pin down the order of the
surrounding side effects for every possible callee.
-/

namespace LSN

/-- Status-flag bit masks, from `LSN_STATUS_FLAGS` in `LSNCpu6502.h`:
carry = 1, zero = 2, IRQ disable = 4, decimal = 8, break = 0x10,
reserved = 0x20, overflow = 0x40, negative = 0x80.  The source exposes
them through the helpers `C()`, `Z()`, `I()`, `X()` (break), `V()`, `N()`. -/
def flagC : Nat := 0x01
def flagZ : Nat := 0x02
def flagI : Nat := 0x04
def flagD : Nat := 0x08
def flagX : Nat := 0x10
def flagU : Nat := 0x20
def flagV : Nat := 0x40
def flagN : Nat := 0x80

/-! ## C1: the two-phase tick contract (`CCpu6502::Tick`, `CCpu6502::TickPhi2`) -/

/-- The CPU-level state touched directly by `CCpu6502::Tick` and
`CCpu6502::TickPhi2` (`LSNCpu6502.cpp` lines 42-69): the IRQ/NMI latching
flags and the 64-bit cycle counter, plus an opaque `core` component
standing for every other member of `CCpu6502` (registers, micro-step
index, bus, mapper state, ...), which the quantified micro-step and mapper
tick functions are free to modify. -/
structure TickState (Core : Type) where
  irqStatusPhi1Flag : Bool
  irqSeenLowPhi2 : Bool
  detectedNmi : Bool
  lastNmiStatusLine : Bool
  nmiStatusLine : Bool
  irqStatusLine : Bool
  cycleCount : Nat
  core : Core
  deriving Repr, DecidableEq

variable {Core : Type}

/-- Translation of `CCpu6502::Tick` (phi1 entry point, lines 42-53):
`m_bIrqStatusPhi1Flag = m_bIrqSeenLowPhi2; m_bIrqSeenLowPhi2 = false;`
then `m_pmbMapper->Tick();` then `(this->*m_pfTickFunc)();`.
The mapper tick and the installed micro-step are parameters. -/
def Tick (mapperTick microStep : TickState Core → TickState Core)
    (s : TickState Core) : TickState Core :=
  let s1 := { s with irqStatusPhi1Flag := s.irqSeenLowPhi2 }
  let s2 := { s1 with irqSeenLowPhi2 := false }
  let s3 := mapperTick s2
  microStep s3

/-- Translation of `CCpu6502::TickPhi2` (phi2 entry point, lines 58-69):
`(this->*m_pfTickFunc)();` then
`m_bDetectedNmi |= (!m_bLastNmiStatusLine && m_bNmiStatusLine);
m_bLastNmiStatusLine = m_bNmiStatusLine;` then
`m_bIrqSeenLowPhi2 |= m_bIrqStatusLine;` then `++m_ui64CycleCount;`
(64-bit increment). -/
def TickPhi2 (microStep : TickState Core → TickState Core)
    (s : TickState Core) : TickState Core :=
  let s1 := microStep s
  let s2 := { s1 with
    detectedNmi := s1.detectedNmi || (!s1.lastNmiStatusLine && s1.nmiStatusLine) }
  let s3 := { s2 with lastNmiStatusLine := s2.nmiStatusLine }
  let s4 := { s3 with irqSeenLowPhi2 := s3.irqSeenLowPhi2 || s3.irqStatusLine }
  { s4 with cycleCount := (s4.cycleCount + 1) % 2 ^ 64 }

/-- The phi1 IRQ snapshot taken in isolation: latch copied, accumulator
cleared, nothing else touched. -/
def snapshotIrqPhi1 (s : TickState Core) : TickState Core :=
  { s with irqStatusPhi1Flag := s.irqSeenLowPhi2, irqSeenLowPhi2 := false }

/-- The phi2 NMI edge latch taken in isolation. -/
def latchNmiEdge (s : TickState Core) : TickState Core :=
  { s with
    detectedNmi := s.detectedNmi || (!s.lastNmiStatusLine && s.nmiStatusLine),
    lastNmiStatusLine := s.nmiStatusLine }

/-- The phi2 IRQ level accumulation taken in isolation. -/
def accumulateIrq (s : TickState Core) : TickState Core :=
  { s with irqSeenLowPhi2 := s.irqSeenLowPhi2 || s.irqStatusLine }

/-- The 64-bit cycle-counter increment taken in isolation. -/
def incrementCycle (s : TickState Core) : TickState Core :=
  { s with cycleCount := (s.cycleCount + 1) % 2 ^ 64 }

/-! ## C2: opcode fetch (`CCpu6502::Fetch_Opcode_IncPc_Phi2`, `CCpu6502::SetBrkFlags`) -/

/-- The CPU state touched by the opcode-fetch phi2 cycle
(`LSNCpu6502.cpp` lines 911-942) and by `SetBrkFlags` (lines 1798-1808):
program counter, opcode latch, the deferred PC increment
(`m_ui16PcModify`), the PC write-enable (`m_bAllowWritingToPc`), interrupt
pending flags, and the status register. -/
structure FetchState where
  pc : Nat
  opcode : Nat
  pcModify : Nat
  allowWritingToPc : Bool
  handleNmi : Bool
  handleIrq : Bool
  isReset : Bool
  status : Nat
  deriving Repr, DecidableEq

/-- Translation of `CCpu6502::Fetch_Opcode_IncPc_Phi2` (lines 911-942,
`LSN_CPU_VERIFY` disabled).  The macro `LSN_INSTR_START_PHI2_READ( m_rRegs.ui16Pc, ui8Op )`
performs the single bus read of the cycle; the bus is passed as a function
from addresses to byte values.  The fetched byte becomes the opcode and
`m_ui16PcModify = 1` unless an interrupt is pending, in which case the
opcode is forced to `0x00` (the BRK sequence entry in the 258-entry
dispatch table), `m_ui16PcModify = 0` and `m_bAllowWritingToPc = false`. -/
def Fetch_Opcode_IncPc_Phi2 (bus : Nat → Nat) (s : FetchState) : FetchState :=
  let op := bus s.pc % 2 ^ 8
  if s.handleNmi || s.handleIrq || s.isReset then
    { s with opcode := 0, pcModify := 0, allowWritingToPc := false }
  else
    { s with opcode := op, pcModify := 1 }

/-- Translation of `CCpu6502::SetBrkFlags` (lines 1798-1808):
`SetBit<I(), true>` then `SetBit<X(), false>` on the status register and
`m_bAllowWritingToPc = true`. -/
def SetBrkFlags (s : FetchState) : FetchState :=
  { s with
    status := (s.status ||| flagI) &&& (0xFF ^^^ flagX),
    allowWritingToPc := true }

/-! ## C3: BRK vector selection (`CCpu6502::SelectBrkVectors`, `CCpu6502::Push_S_Phi2`) -/

/-- Interrupt vectors from `LSN_VECTORS` in `LSNCpu6502.h`:
NMI = 0xFFFA, RESET = 0xFFFC, IRQ/BRK = 0xFFFE. -/
def LSN_V_NMI : Nat := 0xFFFA
def LSN_V_RESET : Nat := 0xFFFC
def LSN_V_IRQ_BRK : Nat := 0xFFFE

/-- The state consulted and updated by `CCpu6502::SelectBrkVectors`
(`LSNCpu6502.cpp` lines 1759-1795): the reset / NMI / IRQ pending flags,
the NMI input line, the chosen vector, the push-B flag, and the status
register later pushed by `Push_S_Phi2`. -/
structure BrkState where
  isReset : Bool
  detectedNmi : Bool
  handleNmi : Bool
  handleIrq : Bool
  nmiStatusLine : Bool
  brkVector : Nat
  pushB : Bool
  status : Nat
  deriving Repr, DecidableEq

/-- Translation of `CCpu6502::SelectBrkVectors` (lines 1759-1795,
`LSN_CPU_VERIFY` disabled): the if/else-if chain choosing the vector and
the push-B flag, then the NMI-acknowledge block and `m_bHandleIrq = false`. -/
def SelectBrkVectors (s : BrkState) : BrkState :=
  let s1 :=
    if s.isReset then
      { s with brkVector := LSN_V_RESET, pushB := false, isReset := false }
    else if s.detectedNmi then
      { s with brkVector := LSN_V_NMI, pushB := false }
    else if s.handleIrq then
      { s with brkVector := LSN_V_IRQ_BRK, pushB := false }
    else
      { s with brkVector := LSN_V_IRQ_BRK, pushB := true }
  let s2 :=
    if s1.detectedNmi then
      { s1 with handleNmi := false, detectedNmi := false, nmiStatusLine := false }
    else s1
  { s2 with handleIrq := false }

/-- The byte pushed by `CCpu6502::Push_S_Phi2` (`LSNCpu6502.cpp` lines
1429-1441): `m_rRegs.ui8Status | X()` when `m_bPushB` is set, the plain
status byte otherwise.  The stack-write plumbing of the `LSN_PUSH` macro
(write to `0x100 | S`, adjust `S`) is not claim-relevant here; the value
put on the bus is. -/
def Push_S_Phi2_value (s : BrkState) : Nat :=
  if s.pushB then s.status ||| flagX else s.status

/-! ## C4: unstable ANE / LXA (`CCpu6502::Ane_IncPc_BeginInst`, `CCpu6502::Lxa_IncPc_BeginInst`) -/

/-- Register/flag state used by the ANE and LXA micro-steps. -/
structure AluState where
  a : Nat
  x : Nat
  status : Nat
  deriving Repr, DecidableEq

/-- The `SetBit<mask>(status, b)` helper used throughout the source: set
the masked bits when the condition holds, clear them otherwise (status is
an 8-bit register). -/
def setBitMask (mask status : Nat) (b : Bool) : Nat :=
  if b then status ||| mask else status &&& (0xFF ^^^ mask)

/-- Flag updates shared by ANE and LXA: N from bit 7 of the result, Z from
the result being zero. -/
def setNZ (status result : Nat) : Nat :=
  setBitMask flagZ (setBitMask flagN status (result &&& 0x80 ≠ 0)) (result = 0)

/-- Translation of `CCpu6502::Ane_IncPc_BeginInst` (`LSNCpu6502.cpp`
lines 538-548): `A = (A | 0xEE) & X & OP` — the constant is the literal
`0xEE` with no build-switch conditional — then N and Z from the result.
The operand is the argument `op`; the `BeginInst`/`LSN_UPDATE_PC`
bookkeeping (PC advance, micro-step reset) carries no claim-relevant
data here. -/
def Ane_IncPc_BeginInst (s : AluState) (op : Nat) : AluState :=
  let r := (s.a ||| 0xEE) &&& s.x &&& op
  { s with a := r, status := setNZ s.status r }

/-- Translation of `CCpu6502::Lxa_IncPc_BeginInst` (`LSNCpu6502.cpp`
lines 1253-1266): `A = X = (A | CONST) & OP` where CONST is `0xEE` when
`LSN_CPU_VERIFY` is defined and `0xFF` otherwise; N and Z from the
result.  `verify` is the build switch. -/
def Lxa_IncPc_BeginInst (verify : Bool) (s : AluState) (op : Nat) : AluState :=
  let r := (s.a ||| (if verify then 0xEE else 0xFF)) &&& op
  { s with a := r, x := r, status := setNZ s.status r }

/-- The accumulator value the claim (spec §4.1, undocumented opcodes)
prescribes for ANE: `A = (A | const) & X & M` with const = 0xEE when the
external-test-suite compatibility switch is enabled and 0xFF otherwise.
Stated from the claim's words, to be compared with the definition
translated from the source. -/
def aneClaimedValue (verify : Bool) (a x op : Nat) : Nat :=
  (a ||| (if verify then 0xEE else 0xFF)) &&& x &&& op

/-! ## C5: JAM (`CCpu6502::Jam`, `CCpu6502::Jam_Phi2`) -/

/-- The state touched by the two JAM micro-steps (`LSNCpu6502.cpp` lines
1110-1131): PC, the deferred PC increment, the PC write-enable, the
micro-step index into the current opcode's function array, and the opcode
latch (which neither step writes). -/
structure JamState where
  pc : Nat
  pcModify : Nat
  allowWritingToPc : Bool
  funcIdx : Nat
  opcode : Nat
  deriving Repr, DecidableEq

/-- Translation of `CCpu6502::Jam` (phi1, lines 1110-1121):
`if (m_bAllowWritingToPc) m_rRegs.ui16Pc += uint16_t(-int16_t(m_ui16PcModify));`
— a 16-bit two's-complement subtraction undoing any pending PC increment —
then `m_ui16PcModify = 0;` and `LSN_NEXT_FUNCTION` (micro-step index
advances by one, per spec §4.1's description of a micro-step). -/
def Jam (s : JamState) : JamState :=
  let pc1 :=
    if s.allowWritingToPc then (s.pc + (2 ^ 16 - s.pcModify % 2 ^ 16)) % 2 ^ 16
    else s.pc
  { s with pc := pc1, pcModify := 0, funcIdx := s.funcIdx + 1 }

/-- Translation of `CCpu6502::Jam_Phi2` (phi2, lines 1124-1131): one bus
read of `m_rRegs.ui16Pc + 1` whose value is discarded, then
`LSN_NEXT_FUNCTION_BY( -1 )` — the micro-step index moves back one slot,
so the pair of JAM steps repeats forever. -/
def Jam_Phi2 (s : JamState) : JamState :=
  { s with funcIdx := s.funcIdx - 1 }

/-- The address read (and discarded) by `Jam_Phi2`:
`m_rRegs.ui16Pc + 1` as a 16-bit bus address. -/
def Jam_Phi2_readAddr (s : JamState) : Nat :=
  (s.pc + 1) % 2 ^ 16

/-- One full master cycle while jammed: the phi1 step `Jam` then the phi2
step `Jam_Phi2`. -/
def jamCycle (s : JamState) : JamState :=
  Jam_Phi2 (Jam s)

/-! ## C6: SHA / SHS / SHX / SHY stores (`CCpu6502::Sha_Phi2`, `Shs_Phi2`, `Shx_Phi2`, `Shy_Phi2`) -/

/-- Inputs of the unstable-store phi2 micro-steps (`LSNCpu6502.cpp` lines
1811-1954): the two bytes of the scratch 16-bit effective address, the
boundary-crossed flag set during effective-address formation, and the
registers.  The `_bToAddr` template parameter selects whether
`m_ui16Address` or `m_ui16Pointer` supplies the bytes; the two branches
are byte-for-byte identical up to that choice, so the embedding takes the
selected register's bytes as `addrLo`/`addrHi`. -/
structure ShaState where
  addrLo : Nat
  addrHi : Nat
  boundaryCrossed : Bool
  a : Nat
  x : Nat
  y : Nat
  deriving Repr, DecidableEq

/-- The shared store pattern of the four unstable stores, with `reg` the
register product (A&X for SHA/SHS, X for SHX, Y for SHY).  Crossed:
`ui16Val = hi & reg` written to `lo | ui16Val << 8`.  Not crossed:
`ui16Val = (hi + 1) & reg` (C++ `int` arithmetic, no truncation before
the AND) written to the scratch 16-bit address.  The result is the
(16-bit address, 8-bit data) pair the `LSN_INSTR_START_PHI2_WRITE` macro
puts on the bus. -/
def shaStorePattern (lo hi : Nat) (crossed : Bool) (reg : Nat) : Nat × Nat :=
  if crossed then
    let v := hi &&& reg
    ((lo ||| (v <<< 8)) % 2 ^ 16, v % 2 ^ 8)
  else
    let v := (hi + 1) &&& reg
    (((hi <<< 8) ||| lo) % 2 ^ 16, v % 2 ^ 8)

/-- Translation of `CCpu6502::Sha_Phi2` (lines 1811-1844): stores
`A & X & (hi + 1)` (or the crossed-page variant) at the effective
address. -/
def Sha_Phi2 (s : ShaState) : Nat × Nat :=
  shaStorePattern s.addrLo s.addrHi s.boundaryCrossed (s.a &&& s.x)

/-- Translation of the store of `CCpu6502::Shs_Phi2` (lines 1846-1882);
the step also executes `m_rRegs.ui8S = m_rRegs.ui8A & m_rRegs.ui8X`,
returned as the second component. -/
def Shs_Phi2 (s : ShaState) : (Nat × Nat) × Nat :=
  (shaStorePattern s.addrLo s.addrHi s.boundaryCrossed (s.a &&& s.x), s.a &&& s.x)

/-- Translation of `CCpu6502::Shx_Phi2` (lines 1884-1918): register term
is X. -/
def Shx_Phi2 (s : ShaState) : Nat × Nat :=
  shaStorePattern s.addrLo s.addrHi s.boundaryCrossed s.x

/-- Translation of `CCpu6502::Shy_Phi2` (lines 1920-1954): register term
is Y. -/
def Shy_Phi2 (s : ShaState) : Nat × Nat :=
  shaStorePattern s.addrLo s.addrHi s.boundaryCrossed s.y

/-! ## C7: controller port 0x4016 (`CCpu6502::Read4016`, `CCpu6502::Write4016`) -/

/-- Controller-1 port state (`LSNCpu6502.h` lines 188-191, index 0 of the
three arrays): the strobe/output bits `m_ui8Inputs[0]`, the shift
register `m_ui8InputsState[0]`, and the latched poll snapshot
`m_ui8InputsPoll[0]`. -/
structure InputState where
  inputs : Nat
  inputsState : Nat
  inputsPoll : Nat
  deriving Repr, DecidableEq

/-- Translation of `CCpu6502::Read4016` (`LSNCpu6502.h` lines 233-237):
`_ui8Ret = (m_ui8InputsState[0] & 0x80) != 0;` (a 0/1 byte from the MSB)
then `m_ui8InputsState[0] <<= 1;` (8-bit shift). -/
def Read4016 (s : InputState) : Nat × InputState :=
  ((if s.inputsState &&& 0x80 ≠ 0 then 1 else 0),
   { s with inputsState := (s.inputsState <<< 1) % 2 ^ 8 })

/-- Translation of `CCpu6502::Write4016` (`LSNCpu6502.h` lines 247-258):
`m_ui8Inputs[0] = (m_ui8Inputs[0] & 0b11111000) | (v & 0b00000111);`
then the poller is sampled (`pollValue` stands for
`m_pipPoller->PollPort(0)`, or 0 when no poller is installed) into
`m_ui8InputsPoll[0]`, and `m_ui8InputsState[0] = m_ui8InputsPoll[0];`.
Every write runs this unconditionally — the handler never tests bit 0 of
the written value. -/
def Write4016 (pollValue : Nat) (v : Nat) (s : InputState) : InputState :=
  { s with
    inputs := (s.inputs &&& 0b11111000) ||| (v &&& 0b00000111),
    inputsPoll := pollValue,
    inputsState := pollValue }

/-! ## C8: DMA trigger (`CCpu6502::BeginDma`, `CCpu6502::Write4014`) -/

/-- Tags for the values the tick-function pointer `m_pfTickFunc` can hold
around a DMA trigger: the two normal-execution tick handlers
(`Tick_NextInstructionStd`, `Tick_InstructionCycleStd`) and the DMA tick
`Tick_Dma<LSN_DS_IDLE, false>` installed by `BeginDma`. -/
inductive TickFuncTag where
  | nextInstructionStd
  | instructionCycleStd
  | dmaIdle
  deriving Repr, DecidableEq

/-- The state touched or (per the claim) explicitly left alone by
`CCpu6502::BeginDma` (`LSNCpu6502.cpp` lines 105-110): the active tick
function, its saved copy `m_pfTickFuncCopy`, the DMA source address, the
DMA alignment flag `m_bDmaGo`, and the CPU register file. -/
structure DmaTrigState where
  tickFunc : TickFuncTag
  tickFuncCopy : TickFuncTag
  dmaAddress : Nat
  dmaGo : Bool
  a : Nat
  x : Nat
  y : Nat
  s : Nat
  status : Nat
  pc : Nat
  deriving Repr, DecidableEq

/-- Translation of `CCpu6502::BeginDma` (lines 105-110):
`m_pfTickFunc = &CCpu6502::Tick_Dma<LSN_DS_IDLE, false>;
m_ui16DmaAddress = uint16_t( _ui8Val ) << 8; m_bDmaGo = false;`
with the comment `Leave m_pfTickFuncCopy as-is to return to it after the
transfer.`  The value parameter is a `uint8_t`. -/
def BeginDma (v : Nat) (st : DmaTrigState) : DmaTrigState :=
  { st with
    tickFunc := TickFuncTag.dmaIdle,
    dmaAddress := (v % 2 ^ 8) <<< 8,
    dmaGo := false }

/-- Translation of `CCpu6502::Write4014` (`LSNCpu6502.h` lines 221-223):
the bus write handler on 0x4014 forwards the written value straight to
`BeginDma`. -/
def Write4014 (v : Nat) (st : DmaTrigState) : DmaTrigState :=
  BeginDma v st

/-! ## C9 / C10: mapper 094 (`CMapper094` in `LSNMapper094.cpp`) -/

/-- Mapper-094 state (`LSNMapper094.cpp`): the PRG ROM (byte store plus
its size in bytes, `m_prRom->vPrgRom`), the PRG bank register
`m_ui8PgmBank`, the bank-select mask `m_ui8Mask`, and the fixed-window
offset `m_stFixedOffset` computed by `ApplyMap`. -/
structure Mapper094 where
  prgRomSize : Nat
  prgRom : Nat → Nat
  pgmBank : Nat
  mask : Nat
  stFixedOffset : Nat

/-- Translation of `CMapper094::InitWithRom` (lines 25-29):
`m_ui8PgmBank = 0; m_ui8Mask = 0b11100;` after the base-class setup that
records the ROM. -/
def InitWithRom094 (romSize : Nat) (rom : Nat → Nat) : Mapper094 :=
  { prgRomSize := romSize, prgRom := rom, pgmBank := 0, mask := 0b11100,
    stFixedOffset := 0 }

/-- The fixed-window offset computed at the top of `CMapper094::ApplyMap`
(line 39): `std::max( vPrgRom.size(), 0x4000 ) - 0x4000`, i.e. the start
of the last 16 KiB of PRG ROM. -/
def ApplyMap094 (m : Mapper094) : Mapper094 :=
  { m with stFixedOffset := max m.prgRomSize 0x4000 - 0x4000 }

/-- Modelled from the spec: `CMapperBase::PgmBankRead_Fixed` is declared
in the mapper base class, which is not among the provided sources.  Per
spec §4.3 the upper PRG window "is fixed to the last 16 KiB": the handler
serves the PRG-ROM byte at the fixed offset plus the per-address
parameter (`addr - 0xC000`, installed in `ApplyMap` line 41). -/
def PgmBankRead_Fixed (m : Mapper094) (param : Nat) : Nat :=
  m.prgRom (m.stFixedOffset + param) % 2 ^ 8

/-- Modelled from the spec: `CMapperBase::PgmBankRead_4000` is declared in
the mapper base class, which is not among the provided sources.  Per spec
§4.3 the lower window "is the selected bank": the handler serves the
PRG-ROM byte at `bank * 0x4000` plus the per-address parameter
(`addr - 0x8000`, installed in `ApplyMap` line 45). -/
def PgmBankRead_4000 (m : Mapper094) (param : Nat) : Nat :=
  m.prgRom (m.pgmBank * 0x4000 + param) % 2 ^ 8

/-- Translation of `CMapper094::SelectBank` (lines 67-71):
`m_ui8PgmBank = ((_ui8Val & m_ui8Mask) >> 2) % (vPrgRom.size() / 0x4000);`
with `_ui8Val` a `uint8_t`.  No guard precedes the modulo. -/
def SelectBank094 (v : Nat) (m : Mapper094) : Mapper094 :=
  { m with pgmBank := (((v % 2 ^ 8) &&& m.mask) >>> 2) % (m.prgRomSize / 0x4000) }

/-- The CPU-bus read behavior installed by `CMapper094::ApplyMap`
(lines 37-46): addresses 0xC000-0xFFFF get `PgmBankRead_Fixed` with
parameter `addr - 0xC000`; addresses 0x8000-0xBFFF get `PgmBankRead_4000`
with parameter `addr - 0x8000`; the mapper installs nothing below
0x8000 (`none`). -/
def cpuRead094 (m : Mapper094) (addr : Nat) : Option Nat :=
  if 0xC000 ≤ addr ∧ addr < 0x10000 then
    some (PgmBankRead_Fixed m (addr - 0xC000))
  else if 0x8000 ≤ addr ∧ addr < 0xC000 then
    some (PgmBankRead_4000 m (addr - 0x8000))
  else none

/-- The CPU-bus write behavior installed by `CMapper094::ApplyMap`
(lines 48-51): every address in 0x8000-0xFFFF gets `CMapper094::SelectBank`
(the region is treated as ROM — the write only updates the bank
register); the mapper installs nothing below 0x8000 (`none`). -/
def cpuWrite094 (m : Mapper094) (addr v : Nat) : Option Mapper094 :=
  if 0x8000 ≤ addr ∧ addr < 0x10000 then some (SelectBank094 v m)
  else none

/-- Modelled from the spec: the PPU address-space constants
`LSN_PPU_PATTERN_TABLES` and `LSN_PPU_NAMETABLES` live in a header not
among the provided sources; per the spec (§4.3 "CHR region", glossary)
the pattern tables are the CHR region 0x0000-0x1FFF and the nametables
begin at 0x2000. -/
def LSN_PPU_PATTERN_TABLES : Nat := 0x0000

/-- Modelled from the spec: start of the PPU nametables, 0x2000 (see
`LSN_PPU_PATTERN_TABLES`). -/
def LSN_PPU_NAMETABLES : Nat := 0x2000

/-- The PPU-bus write-handler installation of `CMapper094::ApplyMap`
(lines 53-56): every pattern-table address receives `CPpuBus::StdWrite`
(a plain RAM write), making the CHR pattern-table region writable. -/
def chrWriteInstalled094 (addr : Nat) : Bool :=
  decide (LSN_PPU_PATTERN_TABLES ≤ addr ∧ addr < LSN_PPU_NAMETABLES)

/-! ## Helper lemmas -/

/-- Any bits OR-ed into a word survive an AND with the same mask. -/
lemma lor_and_absorb (a m : Nat) : (a ||| m) &&& m = m := by
  apply Nat.eq_of_testBit_eq
  intro i
  rw [Nat.testBit_land, Nat.testBit_lor]
  cases h : m.testBit i <;> simp [h]

/-- Low byte of a low-byte-or-shifted-high composition. -/
lemma lor_shl8_mod (lo v : Nat) (h : lo < 2 ^ 8) :
    (lo ||| (v <<< 8)) % 2 ^ 8 = lo := by
  rw [← Nat.and_pow_two_sub_one_eq_mod]
  rw [Nat.land_comm, Nat.and_or_distrib_left, Nat.land_comm _ lo,
    Nat.land_comm _ (v <<< 8)]
  rw [Nat.and_pow_two_sub_one_eq_mod, Nat.and_pow_two_sub_one_eq_mod,
    Nat.shiftLeft_eq]
  rw [Nat.mod_eq_of_lt h]
  simp [Nat.mul_mod_left]

/-- High part of a low-byte-or-shifted-high composition. -/
lemma lor_shl8_div (lo v : Nat) (h : lo < 2 ^ 8) :
    (lo ||| (v <<< 8)) / 2 ^ 8 = v := by
  rw [← Nat.shiftRight_eq_div_pow]
  apply Nat.eq_of_testBit_eq
  intro i
  rw [Nat.testBit_shiftRight, Nat.testBit_lor, Nat.testBit_shiftLeft]
  have h1 : lo.testBit (8 + i) = false :=
    Nat.testBit_eq_false_of_lt
      (lt_of_lt_of_le h (Nat.pow_le_pow_right (by norm_num) (by omega)))
  have h2 : 8 ≤ 8 + i := by omega
  simp [h1, h2]

/-- A low-byte-or-shifted-high composition is the corresponding sum. -/
lemma lor_shl8_eq (lo v : Nat) (h : lo < 2 ^ 8) :
    lo ||| (v <<< 8) = v * 2 ^ 8 + lo := by
  have hdm := Nat.div_add_mod (lo ||| (v <<< 8)) (2 ^ 8)
  rw [lor_shl8_mod lo v h, lor_shl8_div lo v h] at hdm
  omega

/-- The C++ `(hi + 1) & reg` (int arithmetic) truncated to a byte agrees
with masking `reg` by the byte-truncated `hi + 1`, for byte-sized
inputs.  The corner is `hi = 0xFF`: `0x100 & reg = 0 = reg & 0x00`. -/
lemma and_succ_byte (hi reg : Nat) (hhi : hi < 2 ^ 8) (hreg : reg < 2 ^ 8) :
    ((hi + 1) &&& reg) % 2 ^ 8 = reg &&& ((hi + 1) % 2 ^ 8) := by
  rcases Nat.lt_or_ge (hi + 1) (2 ^ 8) with hlt | hge
  · calc ((hi + 1) &&& reg) % 2 ^ 8
        = (hi + 1) &&& reg :=
          Nat.mod_eq_of_lt (Nat.lt_of_le_of_lt Nat.and_le_right hreg)
      _ = reg &&& (hi + 1) := Nat.land_comm _ _
      _ = reg &&& ((hi + 1) % 2 ^ 8) := by rw [Nat.mod_eq_of_lt hlt]
  · have h255 : hi = 255 := by omega
    subst h255
    have h256 : (255 + 1 : Nat) = 2 ^ 8 := by norm_num
    rw [h256, Nat.land_comm, Nat.and_two_pow]
    rw [Nat.testBit_eq_false_of_lt hreg]
    simp

set_option maxRecDepth 2048 in
/-- The read handler on 0x4016 converts the AND-with-0x80 test into the
byte's MSB, for byte-sized shift-register values. -/
lemma msb_of_byte : ∀ st : Nat, st < 2 ^ 8 →
    (if st &&& 0x80 ≠ 0 then (1 : Nat) else 0) = st / 2 ^ 7 := by
  decide

/-- Bit 7 (N) of a status byte after `setNZ` reflects bit 7 of the
result. -/
lemma setNZ_testBit7 (st r : Nat) :
    (setNZ st r).testBit 7 = decide (r &&& 0x80 ≠ 0) := by
  have hx1 : ((0xFF : Nat) ^^^ flagN) = 0x7F := by decide
  have hx2 : ((0xFF : Nat) ^^^ flagZ) = 0xFD := by decide
  have t1 : (flagN : Nat).testBit 7 = true := by decide
  have t2 : (flagZ : Nat).testBit 7 = false := by decide
  have t3 : (0x7F : Nat).testBit 7 = false := by decide
  have t4 : (0xFD : Nat).testBit 7 = true := by decide
  unfold setNZ setBitMask
  rw [hx1, hx2]
  by_cases h1 : r &&& 0x80 ≠ 0 <;> by_cases h2 : r = 0 <;>
    simp [h1, h2, Nat.testBit_lor, Nat.testBit_land, t1, t2, t3, t4]

/-- Bit 1 (Z) of a status byte after `setNZ` reflects the result being
zero. -/
lemma setNZ_testBit1 (st r : Nat) :
    (setNZ st r).testBit 1 = decide (r = 0) := by
  have hx1 : ((0xFF : Nat) ^^^ flagN) = 0x7F := by decide
  have hx2 : ((0xFF : Nat) ^^^ flagZ) = 0xFD := by decide
  have t1 : (flagN : Nat).testBit 1 = false := by decide
  have t2 : (flagZ : Nat).testBit 1 = true := by decide
  have t3 : (0x7F : Nat).testBit 1 = true := by decide
  have t4 : (0xFD : Nat).testBit 1 = false := by decide
  unfold setNZ setBitMask
  rw [hx1, hx2]
  by_cases h1 : r &&& 0x80 ≠ 0 <;> by_cases h2 : r = 0 <;>
    simp [h1, h2, Nat.testBit_lor, Nat.testBit_land, t1, t2, t3, t4]

/-! ## Theorems -/

/-- C1: for every master cycle, phi1 (`Tick`) first snapshots the IRQ
latch and clears it, then invokes the mapper's per-cycle tick, then
executes exactly one micro-step function; phi2 (`TickPhi2`) executes one
micro-step function, then latches the NMI rising edge, then
OR-accumulates the IRQ level into `irqSeenLowPhi2`, then increments the
64-bit cycle counter, in that order.  Stated as functional equality with
the composition of the individually defined operations, for every
possible mapper tick and micro-step function. -/
theorem tick_two_phase_order {Core : Type}
    (mapperTick microStep : TickState Core → TickState Core) (s : TickState Core) :
    Tick mapperTick microStep s = microStep (mapperTick (snapshotIrqPhi1 s)) ∧
    TickPhi2 microStep s =
      incrementCycle (accumulateIrq (latchNmiEdge (microStep s))) := by
  constructor <;> rfl

/-- C2: the opcode-fetch phi2 cycle reads the byte at PC from the bus;
with no interrupt pending it becomes the opcode and the PC increment is
scheduled (`pcModify = 1`); with an interrupt pending the fetched byte is
discarded (opcode forced to 0x00, the BRK entry), the increment is
suppressed (`pcModify = 0`) and PC writes are disallowed until
`SetBrkFlags` — the end of the vector-selection phase — re-enables them. -/
theorem fetch_opcode_interrupt_discard (bus : Nat → Nat) (s : FetchState) :
    ((Fetch_Opcode_IncPc_Phi2 bus s).opcode =
      if s.handleNmi || s.handleIrq || s.isReset then 0 else bus s.pc % 2 ^ 8) ∧
    ((Fetch_Opcode_IncPc_Phi2 bus s).pcModify =
      if s.handleNmi || s.handleIrq || s.isReset then 0 else 1) ∧
    ((Fetch_Opcode_IncPc_Phi2 bus s).allowWritingToPc =
      if s.handleNmi || s.handleIrq || s.isReset then false else s.allowWritingToPc) ∧
    (Fetch_Opcode_IncPc_Phi2 bus s).pc = s.pc ∧
    (∀ t : FetchState, (SetBrkFlags t).allowWritingToPc = true) := by
  refine ⟨?_, ?_, ?_, ?_, fun t => rfl⟩ <;>
    simp only [Fetch_Opcode_IncPc_Phi2] <;> split <;> rfl

/-- C3: the BRK vector-selection step chooses the vector with priority
RESET (0xFFFC) over NMI (0xFFFA) over IRQ/BRK (0xFFFE); the push-B flag
is set exactly in the plain-BRK case (no reset, no NMI, no IRQ), and the
status byte subsequently pushed by `Push_S_Phi2` carries bit 4 (B) set
exactly in that case, given that B is not stored in the status register
itself (spec §3 invariant, maintained by `SetBrkFlags`). -/
theorem brk_vector_priority_and_pushed_b (s : BrkState)
    (h : s.status &&& flagX = 0) :
    ((SelectBrkVectors s).brkVector =
      if s.isReset then LSN_V_RESET
      else if s.detectedNmi then LSN_V_NMI
      else LSN_V_IRQ_BRK) ∧
    ((SelectBrkVectors s).pushB =
      (!s.isReset && !s.detectedNmi && !s.handleIrq)) ∧
    (Push_S_Phi2_value (SelectBrkVectors s) &&& flagX =
      if !s.isReset && !s.detectedNmi && !s.handleIrq then flagX else 0) := by
  cases hr : s.isReset <;> cases hn : s.detectedNmi <;> cases hi : s.handleIrq <;>
    simp_all [SelectBrkVectors, Push_S_Phi2_value, lor_and_absorb]

/-- Witness for `brk_vector_priority_and_pushed_b`: a plain-BRK entry
with status 0x24 (B clear) selects 0xFFFE and pushes bit 4 set. -/
theorem brk_vector_priority_witness :
    Push_S_Phi2_value (SelectBrkVectors
        { isReset := false, detectedNmi := false, handleNmi := false,
          handleIrq := false, nmiStatusLine := false, brkVector := 0,
          pushB := false, status := 0x24 }) &&& flagX = flagX := by
  have hmain := brk_vector_priority_and_pushed_b
    { isReset := false, detectedNmi := false, handleNmi := false,
      handleIrq := false, nmiStatusLine := false, brkVector := 0,
      pushB := false, status := 0x24 } (by decide)
  simpa using hmain.2.2

/-- C4 counterexample: with the external-test-suite switch disabled the
claim prescribes the constant 0xFF for ANE, but `Ane_IncPc_BeginInst`
hard-codes 0xEE: at A = 0x00, X = 0xFF, M = 0xFF the source computes
0xEE while the claim demands 0xFF. -/
theorem ane_constant_counterexample :
    (Ane_IncPc_BeginInst { a := 0, x := 0xFF, status := 0 } 0xFF).a ≠
      aneClaimedValue false 0 0xFF 0xFF := by
  decide

/-- C4 amended: ANE computes `A = (A | 0xEE) & X & M` in every build
configuration — the 0xEE/0xFF compatibility switch applies only to LXA,
so ANE agrees with the claimed model only in its switch-enabled form —
while LXA computes `A = X = (A | const) & M` with const 0xEE under the
switch and 0xFF otherwise; both set N from bit 7 of the result and Z
from the result being zero. -/
theorem ane_lxa_amended (verify : Bool) (s : AluState) (op : Nat) :
    (Ane_IncPc_BeginInst s op).a = (s.a ||| 0xEE) &&& s.x &&& op ∧
    (Ane_IncPc_BeginInst s op).a = aneClaimedValue true s.a s.x op ∧
    (Ane_IncPc_BeginInst s op).x = s.x ∧
    (Lxa_IncPc_BeginInst verify s op).a =
      (s.a ||| (if verify then 0xEE else 0xFF)) &&& op ∧
    (Lxa_IncPc_BeginInst verify s op).x = (Lxa_IncPc_BeginInst verify s op).a ∧
    ((Ane_IncPc_BeginInst s op).status.testBit 7 =
      decide ((Ane_IncPc_BeginInst s op).a &&& 0x80 ≠ 0)) ∧
    ((Ane_IncPc_BeginInst s op).status.testBit 1 =
      decide ((Ane_IncPc_BeginInst s op).a = 0)) ∧
    ((Lxa_IncPc_BeginInst verify s op).status.testBit 7 =
      decide ((Lxa_IncPc_BeginInst verify s op).a &&& 0x80 ≠ 0)) ∧
    ((Lxa_IncPc_BeginInst verify s op).status.testBit 1 =
      decide ((Lxa_IncPc_BeginInst verify s op).a = 0)) := by
  exact ⟨rfl, rfl, rfl, rfl, rfl,
    setNZ_testBit7 s.status _, setNZ_testBit1 s.status _,
    setNZ_testBit7 s.status _, setNZ_testBit1 s.status _⟩

/-- One jammed master cycle is a fixed point: applying it twice equals
applying it once (the first cycle zeroes the pending PC delta; after
that nothing moves). -/
lemma jamCycle_fixed (s : JamState) : jamCycle (jamCycle s) = jamCycle s := by
  cases h : s.allowWritingToPc <;> simp [jamCycle, Jam, Jam_Phi2, h]

/-- C5: after the CPU executes a JAM opcode (one `Jam`/`Jam_Phi2` master
cycle), the machine never advances: every later jammed cycle leaves the
whole state — PC, opcode latch, micro-step index — exactly where the
first one left it; mid-cycle the index sits one slot ahead and the phi2
step pulls it back, so the sequence loops forever on the same two steps;
and every later phi2 performs the same discarded read of the one fixed
address derived from the frozen PC. -/
theorem jam_freezes (s : JamState) (n : Nat) :
    jamCycle^[n] (jamCycle s) = jamCycle s ∧
    (jamCycle^[n] (jamCycle s)).pc = (jamCycle s).pc ∧
    (jamCycle^[n] (jamCycle s)).opcode = s.opcode ∧
    (Jam (jamCycle^[n] (jamCycle s))).funcIdx = (jamCycle s).funcIdx + 1 ∧
    Jam_Phi2_readAddr (Jam (jamCycle^[n] (jamCycle s))) =
      ((jamCycle s).pc + 1) % 2 ^ 16 := by
  have hiter : ∀ m : Nat, jamCycle^[m] (jamCycle s) = jamCycle s := by
    intro m
    induction m with
    | zero => rfl
    | succ k ih => rw [Function.iterate_succ_apply', ih, jamCycle_fixed]
  have hpc : (Jam (jamCycle s)).pc = (jamCycle s).pc := by
    calc (Jam (jamCycle s)).pc
        = (jamCycle (jamCycle s)).pc := rfl
      _ = (jamCycle s).pc := by rw [jamCycle_fixed]
  refine ⟨hiter n, by rw [hiter n],
    by rw [hiter n]; simp [jamCycle, Jam, Jam_Phi2],
    by rw [hiter n]; simp [Jam], ?_⟩
  rw [hiter n]
  unfold Jam_Phi2_readAddr
  rw [hpc]

/-- The crossed-page branch of the shared unstable-store pattern: the
store address keeps the low byte and takes the stored value as its high
byte. -/
lemma shaStorePattern_crossed (lo hi reg : Nat) (hlo : lo < 2 ^ 8)
    (hhi : hi < 2 ^ 8) (hreg : reg < 2 ^ 8) :
    (shaStorePattern lo hi true reg).1 % 2 ^ 8 = lo ∧
    (shaStorePattern lo hi true reg).1 / 2 ^ 8 =
      (shaStorePattern lo hi true reg).2 := by
  have hv : hi &&& reg < 2 ^ 8 := lt_of_le_of_lt Nat.and_le_left hhi
  have heq : lo ||| ((hi &&& reg) <<< 8) = (hi &&& reg) * 2 ^ 8 + lo :=
    lor_shl8_eq lo _ hlo
  have hlt : lo ||| ((hi &&& reg) <<< 8) < 2 ^ 16 := by
    rw [heq]
    have : hi &&& reg ≤ 2 ^ 8 - 1 := by omega
    nlinarith
  simp only [shaStorePattern, if_pos]
  rw [Nat.mod_eq_of_lt hlt]
  exact ⟨lor_shl8_mod lo _ hlo,
    by rw [lor_shl8_div lo _ hlo, Nat.mod_eq_of_lt hv]⟩

/-- The same-page branch of the shared unstable-store pattern: the store
goes to the untouched effective address and the value is the register
product masked with the incremented high byte. -/
lemma shaStorePattern_not_crossed (lo hi reg : Nat) (hlo : lo < 2 ^ 8)
    (hhi : hi < 2 ^ 8) (hreg : reg < 2 ^ 8) :
    shaStorePattern lo hi false reg =
      (hi * 2 ^ 8 + lo, reg &&& ((hi + 1) % 2 ^ 8)) := by
  have haddr : (hi <<< 8) ||| lo = hi * 2 ^ 8 + lo := by
    rw [Nat.lor_comm]
    exact lor_shl8_eq lo hi hlo
  have hlt : (hi <<< 8) ||| lo < 2 ^ 16 := by
    rw [haddr]
    have : hi ≤ 2 ^ 8 - 1 := by omega
    nlinarith
  simp only [shaStorePattern, Bool.false_eq_true, if_neg, not_false_eq_true]
  rw [Nat.mod_eq_of_lt hlt, haddr, and_succ_byte hi reg hhi hreg]

/-- C6: for each of SHA, SHS, SHX and SHY, when no page was crossed the
byte written is `reg & (high byte of the effective address + 1)` (reg
being A&X, A&X, X, Y respectively) at the unmodified effective address,
and when a page was crossed the address used for the store keeps the low
byte while its high byte is replaced by the stored value; SHS
additionally moves A&X into S. -/
theorem unstable_store_contract (st : ShaState)
    (hlo : st.addrLo < 2 ^ 8) (hhi : st.addrHi < 2 ^ 8)
    (ha : st.a < 2 ^ 8) (hx : st.x < 2 ^ 8) (hy : st.y < 2 ^ 8) :
    (st.boundaryCrossed = false →
      Sha_Phi2 st =
        (st.addrHi * 2 ^ 8 + st.addrLo,
         (st.a &&& st.x) &&& ((st.addrHi + 1) % 2 ^ 8)) ∧
      (Shs_Phi2 st).1 =
        (st.addrHi * 2 ^ 8 + st.addrLo,
         (st.a &&& st.x) &&& ((st.addrHi + 1) % 2 ^ 8)) ∧
      (Shs_Phi2 st).2 = st.a &&& st.x ∧
      Shx_Phi2 st =
        (st.addrHi * 2 ^ 8 + st.addrLo, st.x &&& ((st.addrHi + 1) % 2 ^ 8)) ∧
      Shy_Phi2 st =
        (st.addrHi * 2 ^ 8 + st.addrLo, st.y &&& ((st.addrHi + 1) % 2 ^ 8))) ∧
    (st.boundaryCrossed = true →
      ((Sha_Phi2 st).1 % 2 ^ 8 = st.addrLo ∧
        (Sha_Phi2 st).1 / 2 ^ 8 = (Sha_Phi2 st).2) ∧
      (((Shs_Phi2 st).1).1 % 2 ^ 8 = st.addrLo ∧
        ((Shs_Phi2 st).1).1 / 2 ^ 8 = ((Shs_Phi2 st).1).2) ∧
      ((Shx_Phi2 st).1 % 2 ^ 8 = st.addrLo ∧
        (Shx_Phi2 st).1 / 2 ^ 8 = (Shx_Phi2 st).2) ∧
      ((Shy_Phi2 st).1 % 2 ^ 8 = st.addrLo ∧
        (Shy_Phi2 st).1 / 2 ^ 8 = (Shy_Phi2 st).2)) := by
  have hax : st.a &&& st.x < 2 ^ 8 := lt_of_le_of_lt Nat.and_le_left ha
  constructor
  · intro hb
    unfold Sha_Phi2 Shs_Phi2 Shx_Phi2 Shy_Phi2
    rw [hb]
    exact ⟨shaStorePattern_not_crossed _ _ _ hlo hhi hax,
      shaStorePattern_not_crossed _ _ _ hlo hhi hax, rfl,
      shaStorePattern_not_crossed _ _ _ hlo hhi hx,
      shaStorePattern_not_crossed _ _ _ hlo hhi hy⟩
  · intro hb
    unfold Sha_Phi2 Shs_Phi2 Shx_Phi2 Shy_Phi2
    rw [hb]
    exact ⟨shaStorePattern_crossed _ _ _ hlo hhi hax,
      shaStorePattern_crossed _ _ _ hlo hhi hax,
      shaStorePattern_crossed _ _ _ hlo hhi hx,
      shaStorePattern_crossed _ _ _ hlo hhi hy⟩

/-- Witness for `unstable_store_contract`: SHX with effective address
0x1234 (no crossing), X = 0xF0, writes 0xF0 & 0x13 = 0x10 to 0x1234. -/
theorem unstable_store_contract_witness :
    Shx_Phi2 ⟨0x34, 0x12, false, 0xFF, 0xF0, 0⟩ =
      (0x12 * 2 ^ 8 + 0x34, 0xF0 &&& ((0x12 + 1) % 2 ^ 8)) :=
  ((unstable_store_contract ⟨0x34, 0x12, false, 0xFF, 0xF0, 0⟩
      (by decide) (by decide) (by decide) (by decide) (by decide)).1
    rfl).2.2.2.1

/-- C8: any write to 0x4014 starts DMA with source address `V << 8`; the
active tick function becomes the DMA tick while the saved copy
`m_pfTickFuncCopy` is left unchanged (so execution returns to it after
the transfer), and no CPU register is modified by the trigger. -/
theorem write4014_triggers_dma (v : Nat) (st : DmaTrigState) :
    (Write4014 v st).tickFunc = TickFuncTag.dmaIdle ∧
    (Write4014 v st).tickFuncCopy = st.tickFuncCopy ∧
    (Write4014 v st).dmaAddress = (v % 2 ^ 8) * 2 ^ 8 ∧
    (Write4014 v st).a = st.a ∧ (Write4014 v st).x = st.x ∧
    (Write4014 v st).y = st.y ∧ (Write4014 v st).s = st.s ∧
    (Write4014 v st).status = st.status ∧ (Write4014 v st).pc = st.pc := by
  refine ⟨rfl, rfl, ?_, rfl, rfl, rfl, rfl, rfl, rfl⟩
  simp [Write4014, BeginDma, Nat.shiftLeft_eq]

/-- C10: `CMapper094::SelectBank` computes
`((value & 0b11100) >> 2) % (PRG-ROM size / 0x4000)` with no guard.  For
every PRG-ROM size whatsoever, the divisor is nonzero exactly when the
ROM is at least 0x4000 bytes — so the well-definedness of the unchecked
modulo depends on precisely that precondition, which the handler never
establishes — and under that precondition the resulting bank register is
strictly below the bank count. -/
theorem selectBank094_bounded (m : Mapper094) (v : Nat)
    (hmask : m.mask = 0b11100) :
    (SelectBank094 v m).pgmBank =
      (((v % 2 ^ 8) &&& 0b11100) >>> 2) % (m.prgRomSize / 0x4000) ∧
    (m.prgRomSize / 0x4000 ≠ 0 ↔ 0x4000 ≤ m.prgRomSize) ∧
    (0x4000 ≤ m.prgRomSize →
      (SelectBank094 v m).pgmBank < m.prgRomSize / 0x4000) := by
  refine ⟨by rw [SelectBank094, hmask], ?_, ?_⟩
  · rw [ne_eq, Nat.div_eq_zero_iff (by norm_num : (0:Nat) < 0x4000)]
    omega
  · intro h
    have hpos : 0 < m.prgRomSize / 0x4000 :=
      (Nat.one_le_div_iff (by norm_num)).2 h
    exact Nat.mod_lt _ hpos

/-- Witness for `selectBank094_bounded` at a concrete mapper state with a
32 KiB PRG ROM and written value 0xFF: the divisor is nonzero and the
bank register lands below the bank count. -/
theorem selectBank094_bounded_witness :
    ((0x8000 / 0x4000 : Nat) ≠ 0) ∧
    (SelectBank094 0xFF
        { prgRomSize := 0x8000, prgRom := fun _ => 0, pgmBank := 0,
          mask := 0b11100, stFixedOffset := 0 }).pgmBank <
      0x8000 / 0x4000 :=
  ⟨(selectBank094_bounded
      { prgRomSize := 0x8000, prgRom := fun _ => 0, pgmBank := 0,
        mask := 0b11100, stFixedOffset := 0 } 0xFF rfl).2.1.2 (by norm_num),
   (selectBank094_bounded
      { prgRomSize := 0x8000, prgRom := fun _ => 0, pgmBank := 0,
        mask := 0b11100, stFixedOffset := 0 } 0xFF rfl).2.2 (by norm_num)⟩

/-- C7 counterexample: a write of 0x00 to 0x4016 — bit 0 clear — still
latches the poll snapshot (0xAB) into the controller-1 shift register,
contradicting the claim that bit-0-clear writes do not latch. -/
theorem write4016_bit0_counterexample :
    ((0 : Nat) &&& 1 = 0) ∧
    (Write4016 0xAB 0 ⟨0, 0, 0⟩).inputsState = 0xAB ∧
    (0xAB : Nat) ≠ 0 := by
  decide

/-- C7 amended: a read of 0x4016 returns the MSB of the controller-1
shift register and shifts the register left by one (8-bit); every write
to 0x4016 — regardless of bit 0 of the written value — latches the
current button snapshot into the shift register (and into the poll
latch). -/
theorem read_write_4016_amended (s : InputState) (pollValue v : Nat)
    (hs : s.inputsState < 2 ^ 8) :
    (Read4016 s).1 = s.inputsState / 2 ^ 7 ∧
    ((Read4016 s).2).inputsState = (s.inputsState * 2) % 2 ^ 8 ∧
    (Write4016 pollValue v s).inputsState = pollValue ∧
    (Write4016 pollValue v s).inputsPoll = pollValue := by
  refine ⟨msb_of_byte s.inputsState hs, ?_, rfl, rfl⟩
  simp [Read4016, Nat.shiftLeft_eq]

/-- Witness for `read_write_4016_amended`: reading with the shift
register holding 0x80 returns 1. -/
theorem read_write_4016_witness :
    (Read4016 ⟨0, 0x80, 0⟩).1 = 0x80 / 2 ^ 7 :=
  (read_write_4016_amended ⟨0, 0x80, 0⟩ 0 0 (by decide)).1

/-- C9: after `ApplyMap`, mapper 094 serves 0xC000-0xFFFF from the fixed
last 16 KiB of PRG ROM, serves 0x8000-0xBFFF from the bank named by the
bank register, routes every CPU write in 0x8000-0xFFFF to `SelectBank` —
which touches nothing but the bank register, and always leaves it
reduced modulo the 16 KiB bank count — and installs plain-RAM write
handlers over the whole CHR pattern-table region. -/
theorem mapper094_memory_map (m : Mapper094) (v : Nat)
    (hsize : 0x4000 ≤ m.prgRomSize) :
    ((ApplyMap094 m).stFixedOffset = m.prgRomSize - 0x4000) ∧
    (∀ a, 0xC000 ≤ a → a < 0x10000 →
      cpuRead094 (ApplyMap094 m) a =
        some (m.prgRom (m.prgRomSize - 0x4000 + (a - 0xC000)) % 2 ^ 8)) ∧
    (∀ a, 0x8000 ≤ a → a < 0xC000 →
      cpuRead094 (ApplyMap094 m) a =
        some (m.prgRom (m.pgmBank * 0x4000 + (a - 0x8000)) % 2 ^ 8)) ∧
    (∀ a w, 0x8000 ≤ a → a < 0x10000 →
      cpuWrite094 m a w = some (SelectBank094 w m)) ∧
    ((SelectBank094 v m).prgRom = m.prgRom ∧
      (SelectBank094 v m).prgRomSize = m.prgRomSize ∧
      (SelectBank094 v m).stFixedOffset = m.stFixedOffset ∧
      (SelectBank094 v m).mask = m.mask) ∧
    ((SelectBank094 v m).pgmBank < m.prgRomSize / 0x4000) ∧
    (∀ a, a < 0x2000 → chrWriteInstalled094 a = true) := by
  have hmax : max m.prgRomSize 0x4000 = m.prgRomSize := Nat.max_eq_left hsize
  have hpos : 0 < m.prgRomSize / 0x4000 :=
    (Nat.one_le_div_iff (by norm_num)).2 hsize
  have happly : ApplyMap094 m =
      ⟨m.prgRomSize, m.prgRom, m.pgmBank, m.mask, m.prgRomSize - 0x4000⟩ := by
    unfold ApplyMap094
    rw [hmax]
  refine ⟨?_, ?_, ?_, ?_, ⟨rfl, rfl, rfl, rfl⟩, Nat.mod_lt _ hpos, ?_⟩
  · rw [happly]
  · intro a h1 h2
    rw [happly]
    unfold cpuRead094
    rw [if_pos ⟨h1, h2⟩]
    rfl
  · intro a h1 h2
    have h3 : ¬ (0xC000 ≤ a ∧ a < 0x10000) := by omega
    rw [happly]
    unfold cpuRead094
    rw [if_neg h3, if_pos ⟨h1, h2⟩]
    rfl
  · intro a w h1 h2
    unfold cpuWrite094
    rw [if_pos ⟨h1, h2⟩]
  · intro a h
    simp [chrWriteInstalled094, LSN_PPU_PATTERN_TABLES, LSN_PPU_NAMETABLES]
    omega

/-- Witness for `mapper094_memory_map`: a 32 KiB constant-0x42 ROM reads
0x42 through the fixed window at 0xC000. -/
theorem mapper094_memory_map_witness :
    cpuRead094 (ApplyMap094 ⟨0x8000, fun _ => 0x42, 0, 0b11100, 0⟩) 0xC000 =
      some 0x42 := by
  have h := (mapper094_memory_map ⟨0x8000, fun _ => 0x42, 0, 0b11100, 0⟩ 0
    (by norm_num)).2.1 0xC000 (by norm_num) (by norm_num)
  simpa using h

end LSN
